import Mathlib

/-!
Shallow embedding of the QuickJS FFI bridge (`src/examples/ffi.c`) and proofs
about its claims.

Modelling conventions:
  * The engine (QuickJS) is a black box; the bridge only observes it through a
    handful of accessors.  An engine value (`JSValue`) is either the exception
    marker or an ordinary value carrying an abstract payload.
  * The C struct `RuntimeOpaque` (channel pointer, timeout in ms, call-start
    clock stamp) is embedded as `RuntimeCtx`; the runtime's side-channel slot
    (`JS_GetRuntimeOpaque` result) is an `Option RuntimeCtx`, `none` standing
    for a NULL slot.
  * Fire-and-forget invocations of the dispatch channel (PROMISE_TRACK,
    FREE_OBJECT) are modelled as an emitted trace of `Dispatch` events; the
    data-returning MODULE facet of the channel is modelled as a function
    argument where it is needed.
  * C truthiness tests on integers are embedded as `≠ 0` tests on `Int`.
  * `clock()` is an explicit `now : Int` argument (clock ticks).  Machine
    `int64_t` overflow is not modelled: the quantities involved (clock stamps,
    millisecond timeouts) stay far below 2^63 in any real execution, and
    signed overflow is undefined behaviour in the C source anyway.
-/

/-- An engine value: the exception marker, or an ordinary value identified by
an abstract payload (for module objects the payload is the module pointer). -/
inductive JSValue where
  | exception
  | value (ptr : Nat)
deriving DecidableEq

/-- Engine accessor `JS_IsException`. -/
def JS_IsException : JSValue → Bool
  | JSValue.exception => true
  | JSValue.value _ => false

/-- Engine accessor `JS_VALUE_GET_PTR` (only ever applied to non-exception
values by the bridge). -/
def JS_VALUE_GET_PTR : JSValue → Nat
  | JSValue.exception => 0
  | JSValue.value p => p

/-- The C struct `RuntimeOpaque`: dispatch-channel pointer (abstract token),
timeout budget in milliseconds, call-start clock stamp (0 = idle). -/
structure RuntimeCtx where
  channel : Nat
  timeout : Int
  start : Int
deriving DecidableEq

/-- An engine-side object as the finalizer sees it: its class id
(`JS_GetClassID`) and the host pointer attached via `JS_SetOpaque`
(0 = nothing attached / NULL). -/
structure EngineObject where
  classId : Nat
  objData : Nat
deriving DecidableEq

/-- Engine accessor `JS_GetClassID`. -/
def JS_GetClassID (obj : EngineObject) : Nat :=
  obj.classId

/-- Engine accessor `JS_GetOpaque obj classid`: the attached pointer when the
class id matches, NULL otherwise. -/
def JS_GetObjData (obj : EngineObject) (classid : Nat) : Nat :=
  if obj.classId = classid then obj.objData else 0

/-- A fire-and-forget dispatch-channel invocation, tagged with the
`JSChannelType` discriminant and its payload. -/
inductive Dispatch where
  | promiseTrack (reason : JSValue)
  | freeObject (ptr : Nat)
deriving DecidableEq

/-- `CLOCKS_PER_SEC` (POSIX value; no claim depends on the constant). -/
def CLOCKS_PER_SEC : Int := 1000000

/--
```c
int js_interrupt_handler(JSRuntime *rt, void *opaque)
{
  RuntimeOpaque *op = (RuntimeOpaque *)opaque;
  if (op->timeout && op->start && (clock() - op->start) > op->timeout * CLOCKS_PER_SEC / 1000)
  \x7b
    op->start = 0;
    return 1;
  \x7d
  return 0;
}
```
Returns the mutated state and the C return value (1 = abort, 0 = continue). -/
def js_interrupt_handler (op : RuntimeCtx) (now : Int) : RuntimeCtx × Int :=
  if op.timeout ≠ 0 ∧ op.start ≠ 0 ∧ now - op.start > op.timeout * CLOCKS_PER_SEC / 1000 then
    ({ op with start := 0 }, 1)
  else
    (op, 0)

/--
```c
void js_promise_rejection_tracker(JSContext *ctx, JSValueConst promise,
                                  JSValueConst reason, JS_BOOL is_handled, void *opaque)
{
  if (is_handled)
    return;
  ((RuntimeOpaque *)opaque)->channel(ctx, JSChannelType_PROMISE_TRACK, &reason);
}
```
Result: the trace of dispatch-channel invocations performed. -/
def js_promise_rejection_tracker (reason : JSValue) (is_handled : Int) : List Dispatch :=
  if is_handled ≠ 0 then []
  else [Dispatch.promiseTrack reason]

/--
```c
void jsNewClass_finalizer(JSRuntime *rt, JSValue obj)
{
  JSClassID classid = JS_GetClassID(obj);
  void *opaque = JS_GetOpaque(obj, classid);
  RuntimeOpaque *runtimeOpaque = (RuntimeOpaque *)JS_GetRuntimeOpaque(rt);
  if (runtimeOpaque == NULL)
    return;
  runtimeOpaque->channel((JSContext *)rt, JSChannelType_FREE_OBJECT, opaque);
}
```
`rtSlot` is the runtime's side-channel slot (`JS_GetRuntimeOpaque` result);
result: the trace of dispatch-channel invocations performed. -/
def jsNewClass_finalizer (rtSlot : Option RuntimeCtx) (obj : EngineObject) : List Dispatch :=
  let classid := JS_GetClassID obj
  let objData := JS_GetObjData obj classid
  match rtSlot with
  | none => []
  | some _ => [Dispatch.freeObject objData]

/-- Claim C3: one poll of `js_interrupt_handler` signals abort (returns 1) iff
the timeout is nonzero, the call-start stamp is nonzero and the elapsed clock
time since call-start exceeds the timeout (converted from milliseconds to
clock ticks); on abort it zeroes the call-start stamp (one-shot trigger), and
a zero timeout never aborts. -/
theorem js_interrupt_handler_spec (op : RuntimeCtx) (now : Int) :
    ((js_interrupt_handler op now).2 = 1 ↔
      (op.timeout ≠ 0 ∧ op.start ≠ 0 ∧
        now - op.start > op.timeout * CLOCKS_PER_SEC / 1000))
    ∧ ((js_interrupt_handler op now).2 = 1 → (js_interrupt_handler op now).1.start = 0)
    ∧ (op.timeout = 0 → (js_interrupt_handler op now).2 = 0) := by
  unfold js_interrupt_handler
  by_cases h : op.timeout ≠ 0 ∧ op.start ≠ 0 ∧
      now - op.start > op.timeout * CLOCKS_PER_SEC / 1000
  · rw [if_pos h]
    exact ⟨iff_of_true rfl h, fun _ => rfl, fun ht => absurd ht h.1⟩
  · rw [if_neg h]
    refine ⟨iff_of_false (by simp) h, fun hc => by simp at hc, fun _ => rfl⟩

/-- Witness for C3 at concrete inputs: with timeout 5 ms, start stamp 3 and
clock 10000 the handler aborts and zeroes the stamp; with timeout 0 it
signals continue. -/
theorem js_interrupt_handler_spec_witness :
    (js_interrupt_handler ⟨7, 5, 3⟩ 10000).1.start = 0
    ∧ (js_interrupt_handler ⟨7, 0, 3⟩ 10000).2 = 0 := by
  constructor
  · exact (js_interrupt_handler_spec ⟨7, 5, 3⟩ 10000).2.1 (by decide)
  · exact (js_interrupt_handler_spec ⟨7, 0, 3⟩ 10000).2.2 rfl

/-- Claim C4: a rejection notification marked handled performs no dispatch at
all; one marked unhandled performs exactly one PROMISE_TRACK dispatch carrying
the rejection reason. -/
theorem js_promise_rejection_tracker_spec (reason : JSValue) (is_handled : Int) :
    (is_handled ≠ 0 → js_promise_rejection_tracker reason is_handled = [])
    ∧ (is_handled = 0 →
        js_promise_rejection_tracker reason is_handled = [Dispatch.promiseTrack reason]) := by
  constructor
  · intro h
    simp [js_promise_rejection_tracker, h]
  · intro h
    simp [js_promise_rejection_tracker, h]

/-- Witness for C4 at concrete inputs: handled suppresses the dispatch,
unhandled emits exactly the one PROMISE_TRACK event. -/
theorem js_promise_rejection_tracker_spec_witness :
    js_promise_rejection_tracker (JSValue.value 9) 1 = []
    ∧ js_promise_rejection_tracker (JSValue.value 9) 0
        = [Dispatch.promiseTrack (JSValue.value 9)] :=
  ⟨(js_promise_rejection_tracker_spec (JSValue.value 9) 1).1 (by decide),
   (js_promise_rejection_tracker_spec (JSValue.value 9) 0).2 rfl⟩

/-- Claim C5: when the runtime's side-channel slot is NULL the finalizer
returns without invoking the dispatch channel (empty trace) — it is a total
function, so the NULL-dereference branch is unreachable. -/
theorem jsNewClass_finalizer_null_safe (obj : EngineObject) :
    jsNewClass_finalizer none obj = [] := rfl

/-- A primitive effect of the value-freeing operations. -/
inductive FreeAction where
  | engineFreeValue (v : JSValue)
  | deleteBox
deriving DecidableEq

/--
```c
void jsFreeValue(JSContext *ctx, JSValue *v, int32_t free)
{
  JS_FreeValue(ctx, *v);
  if (free)
    _CPP_DELETE_JSVALUE(v);
}
```
Result: the trace of effects, in order: the engine-level reference is always
released, the Box is deallocated only when `free` is truthy. -/
def jsFreeValue (v : JSValue) (free : Int) : List FreeAction :=
  [FreeAction.engineFreeValue v] ++ (if free ≠ 0 then [FreeAction.deleteBox] else [])

/--
```c
void jsFreeValueRT(JSRuntime *rt, JSValue *v, int32_t free)
{
  JS_FreeValueRT(rt, *v);
  if (free)
    _CPP_DELETE_JSVALUE(v);
}
```
Same shape as `jsFreeValue`, runtime-scoped. -/
def jsFreeValueRT (v : JSValue) (free : Int) : List FreeAction :=
  [FreeAction.engineFreeValue v] ++ (if free ≠ 0 then [FreeAction.deleteBox] else [])

/-- Claim C2 formalised exactly as stated by the spec sentence
"free(handle, alsoFreeEngineRef) releases the engine-level reference (if
requested) and deallocates the Box": the engine-level reference is released
iff the flag requests it, and the Box is always deallocated. -/
def freeFlagReleasesEngineRef (v : JSValue) (free : Int) : Prop :=
  ((FreeAction.engineFreeValue v ∈ jsFreeValue v free) ↔ free ≠ 0)
  ∧ FreeAction.deleteBox ∈ jsFreeValue v free

/-- Counterexample to claim C2 as stated: at flag 0, `jsFreeValue` still
releases the engine-level reference and does not deallocate the Box. -/
theorem jsFreeValue_claim_counterexample :
    ¬ freeFlagReleasesEngineRef (JSValue.value 0) 0 := by
  intro h
  exact absurd (h.1.mp (by decide)) (by decide)

/-- Claim C2 (amended): `jsFreeValue` and `jsFreeValueRT` always release the
engine-level reference; the flag determines whether the Box itself is
deallocated. -/
theorem jsFreeValue_flag_controls_box (v : JSValue) (free : Int) :
    (FreeAction.engineFreeValue v ∈ jsFreeValue v free)
    ∧ ((FreeAction.deleteBox ∈ jsFreeValue v free) ↔ free ≠ 0)
    ∧ (FreeAction.engineFreeValue v ∈ jsFreeValueRT v free)
    ∧ ((FreeAction.deleteBox ∈ jsFreeValueRT v free) ↔ free ≠ 0) := by
  by_cases h : free = 0 <;>
    simp [jsFreeValue, jsFreeValueRT, h]

/-- Finalization of a batch of objects: the engine collects each object in
turn, running `jsNewClass_finalizer` with the given runtime slot. -/
def collectObjects (rtSlot : Option RuntimeCtx) (objs : List EngineObject) : List Dispatch :=
  (objs.map (fun o => jsNewClass_finalizer rtSlot o)).flatten

/--
```c
void jsFreeRuntime(JSRuntime *rt)
{
  RuntimeOpaque *opauqe = (RuntimeOpaque *)JS_GetRuntimeOpaque(rt);
  if (opauqe)
    _CPP_DELETE_RT(opauqe);
  JS_SetRuntimeOpaque(rt, NULL);
  JS_FreeRuntime(rt);
}
```
The slot is freed and nulled, then `JS_FreeRuntime` collects every still-live
object, running `jsNewClass_finalizer` against the now-NULL slot.  Result:
whether `_CPP_DELETE_RT` ran, the slot after teardown, and the dispatch trace
emitted during teardown. -/
def jsFreeRuntime (rtSlot : Option RuntimeCtx) (remaining : List EngineObject) :
    Bool × Option RuntimeCtx × List Dispatch :=
  let freedCtx := rtSlot.isSome
  let rtSlot2 : Option RuntimeCtx := none
  (freedCtx, rtSlot2, collectObjects rtSlot2 remaining)

/-- The full dispatch trace of one runtime's life with respect to object
finalization: objects in `live` are collected by the engine while the Runtime
Context `ro` is still attached; then the host calls `jsFreeRuntime` and the
objects in `remaining` are collected during engine teardown. -/
def runtimeTrace (ro : RuntimeCtx) (live remaining : List EngineObject) : List Dispatch :=
  collectObjects (some ro) live ++ (jsFreeRuntime (some ro) remaining).2.2

theorem collectObjects_cons (rtSlot : Option RuntimeCtx) (o : EngineObject)
    (rest : List EngineObject) :
    collectObjects rtSlot (o :: rest)
      = jsNewClass_finalizer rtSlot o ++ collectObjects rtSlot rest := rfl

theorem collectObjects_some (ro : RuntimeCtx) (objs : List EngineObject) :
    collectObjects (some ro) objs
      = objs.map (fun o => Dispatch.freeObject o.objData) := by
  induction objs with
  | nil => rfl
  | cons o rest ih =>
      rw [collectObjects_cons, ih]
      simp [jsNewClass_finalizer, JS_GetObjData, JS_GetClassID]

theorem collectObjects_none (objs : List EngineObject) :
    collectObjects none objs = [] := by
  induction objs with
  | nil => rfl
  | cons o rest ih =>
      rw [collectObjects_cons, ih]
      rfl

theorem count_freeObject_map (objs : List EngineObject) (p : Nat) :
    ((objs.map (fun o => Dispatch.freeObject o.objData)).count (Dispatch.freeObject p))
      = (objs.filter (fun o => o.objData = p)).length := by
  induction objs with
  | nil => rfl
  | cons o rest ih =>
      by_cases h : o.objData = p <;>
        simp [List.count_cons, List.filter_cons, h, ih]

/-- Claim C6: the whole finalization dispatch trace of a runtime consists of
exactly the FREE_OBJECT events of the objects collected while the Runtime
Context was still attached (so every such event precedes the teardown that
frees the Runtime Context); for each pointer p, the number of FREE_OBJECT p
dispatches equals the number of live-collected objects carrying p (exactly
one per such object); and teardown collection after `jsFreeRuntime` nulls the
slot emits no dispatch at all. -/
theorem runtimeTrace_freeObject_spec (ro : RuntimeCtx) (live remaining : List EngineObject)
    (p : Nat) :
    runtimeTrace ro live remaining = live.map (fun o => Dispatch.freeObject o.objData)
    ∧ ((runtimeTrace ro live remaining).count (Dispatch.freeObject p)
        = (live.filter (fun o => o.objData = p)).length)
    ∧ (jsFreeRuntime (some ro) remaining).2.2 = [] := by
  have hnone : (jsFreeRuntime (some ro) remaining).2.2 = [] := by
    simp [jsFreeRuntime, collectObjects_none]
  have htrace : runtimeTrace ro live remaining
      = live.map (fun o => Dispatch.freeObject o.objData) := by
    simp [runtimeTrace, hnone, collectObjects_some]
  exact ⟨htrace, by rw [htrace]; exact count_freeObject_map live p, hnone⟩

/--
```c
JSModuleDef *__my_js_module_loader(JSContext *ctx, const char *module_name, void *opaque)
{
  const char *str = (char *)((RuntimeOpaque *)opaque)->channel(ctx, JSChannelType_MODULE, (void *)module_name);
  if (str == 0)
    return NULL;
  JSValue func_val = JS_Eval(ctx, str, strlen(str), module_name, JS_EVAL_TYPE_MODULE | JS_EVAL_FLAG_COMPILE_ONLY);
  if (JS_IsException(func_val))
    return NULL;
  JSModuleDef *m = (JSModuleDef *)JS_VALUE_GET_PTR(func_val);
  JS_FreeValue(ctx, func_val);
  return m;
}
```
`engineEvalModule source name` is the engine's compile-only module evaluation
(black box); `channelModule` is the MODULE facet of the dispatch channel,
`none` standing for the NULL not-found sentinel.  Result: the module
definition pointer, `none` standing for NULL (engine resolution failure). -/
def __my_js_module_loader (engineEvalModule : String → String → JSValue)
    (channelModule : String → Option String) (module_name : String) : Option Nat :=
  match channelModule module_name with
  | none => none
  | some str =>
    let func_val := engineEvalModule str module_name
    if JS_IsException func_val then none
    else
      let m := JS_VALUE_GET_PTR func_val
      some m

/-- Claim C7: whenever the dispatch channel's MODULE handler answers with the
not-found sentinel, the module loader returns the engine's resolution-failure
result (NULL module definition) — it is a total function, so no crash is
possible on this path. -/
theorem module_loader_not_found_spec (engineEvalModule : String → String → JSValue)
    (channelModule : String → Option String) (module_name : String)
    (h : channelModule module_name = none) :
    __my_js_module_loader engineEvalModule channelModule module_name = none := by
  simp [__my_js_module_loader, h]

/-- Witness for C7: a channel that knows no module makes the loader fail to
resolve the module named "missing". -/
theorem module_loader_not_found_spec_witness :
    __my_js_module_loader (fun _ _ => JSValue.exception) (fun _ => none) "missing" = none :=
  module_loader_not_found_spec (fun _ _ => JSValue.exception) (fun _ => none) "missing" rfl

/--
```c
void js_begin_call(JSRuntime *rt)
{
  JS_UpdateStackTop(rt);
  RuntimeOpaque *opaque = (RuntimeOpaque *)JS_GetRuntimeOpaque(rt);
  if (opaque)
    opaque->start = clock();
}
```
-/
def js_begin_call (rtSlot : Option RuntimeCtx) (now : Int) : Option RuntimeCtx :=
  match rtSlot with
  | none => none
  | some ctx => some { ctx with start := now }

/--
```c
JSValue *jsEval(JSContext *ctx, const char *input, size_t input_len, const char *filename, int32_t eval_flags)
{
  JSRuntime *rt = JS_GetRuntime(ctx);
  js_begin_call(rt);
  JSValue *ret = _CPP_NEW_JSVALUE(JS_Eval(ctx, input, input_len, filename, eval_flags));
  return ret;
}
```
`engineEval` is the engine's evaluator (black box), applied to the runtime
slot as it stands when the engine operation starts.  Result: that slot and
the boxed engine result. -/
def jsEval (engineEval : Option RuntimeCtx → JSValue) (rtSlot : Option RuntimeCtx)
    (now : Int) : Option RuntimeCtx × JSValue :=
  let rtSlot1 := js_begin_call rtSlot now
  (rtSlot1, engineEval rtSlot1)

/--
```c
JSValue *jsCall(JSContext *ctx, JSValueConst *func_obj, JSValueConst *this_obj,
                int32_t argc, JSValueConst *argv)
{
  JSRuntime *rt = JS_GetRuntime(ctx);
  js_begin_call(rt);
  JSValue *ret = _CPP_NEW_JSVALUE(JS_Call(ctx, *func_obj, *this_obj, argc, argv));
  return ret;
}
```
Same stamping discipline as `jsEval`; `engineCall` is the engine's `JS_Call`. -/
def jsCall (engineCall : Option RuntimeCtx → JSValue) (rtSlot : Option RuntimeCtx)
    (now : Int) : Option RuntimeCtx × JSValue :=
  let rtSlot1 := js_begin_call rtSlot now
  (rtSlot1, engineCall rtSlot1)

/--
```c
int32_t jsExecutePendingJob(JSRuntime *rt)
{
  js_begin_call(rt);
  JSContext *ctx;
  int ret = JS_ExecutePendingJob(rt, &ctx);
  return ret;
}
```
`engineJob` is the engine's `JS_ExecutePendingJob` (black box). -/
def jsExecutePendingJob (engineJob : Option RuntimeCtx → Int) (rtSlot : Option RuntimeCtx)
    (now : Int) : Option RuntimeCtx × Int :=
  let rtSlot1 := js_begin_call rtSlot now
  (rtSlot1, engineJob rtSlot1)

/-- Claim C8: `jsEval`, `jsCall` and `jsExecutePendingJob` each stamp the
attached Runtime Context's call-start field with the current clock (via
`js_begin_call`) before the engine operation runs: the slot the engine
operation observes is the original context with start set to now. -/
theorem begin_call_stamps_spec (engineEval engineCall : Option RuntimeCtx → JSValue)
    (engineJob : Option RuntimeCtx → Int) (o : RuntimeCtx) (now : Int) :
    (jsEval engineEval (some o) now).1 = some { o with start := now }
    ∧ (jsCall engineCall (some o) now).1 = some { o with start := now }
    ∧ (jsExecutePendingJob engineJob (some o) now).1 = some { o with start := now } :=
  ⟨rfl, rfl, rfl⟩

/-- A primitive engine call made by `jsNewObjectClass` after construction. -/
inductive EngineCall where
  | setObjData (obj : JSValue) (ptr : Nat)
deriving DecidableEq

/--
```c
JSValue *jsNewObjectClass(JSContext *ctx, uint32_t QJSClassId, void *opaque)
{
  JSValue* jsobj = _CPP_NEW_JSVALUE(JS_NewObjectClass(ctx, QJSClassId));
  if (JS_IsException(*jsobj))
    return jsobj;
  JS_SetOpaque(*jsobj, opaque);
  return jsobj;
}
```
`constructed` is the engine's `JS_NewObjectClass` result (black box).
Result: the Box contents returned to the caller and the trace of `JS_SetOpaque`
calls performed. -/
def jsNewObjectClass (constructed : JSValue) (ptr : Nat) : JSValue × List EngineCall :=
  let jsobj := constructed
  if JS_IsException jsobj then (jsobj, [])
  else (jsobj, [EngineCall.setObjData jsobj ptr])

/-- Claim C9: when engine-side construction yields an exception value the
returned Box holds that exception and the attach step is skipped (no
`JS_SetOpaque` call); only on success is the supplied pointer attached to the
freshly constructed object. -/
theorem jsNewObjectClass_exception_skips_attach (constructed : JSValue) (ptr : Nat) :
    (JS_IsException constructed = true →
      jsNewObjectClass constructed ptr = (constructed, []))
    ∧ (JS_IsException constructed = false →
      jsNewObjectClass constructed ptr
        = (constructed, [EngineCall.setObjData constructed ptr])) := by
  constructor
  · intro h
    simp [jsNewObjectClass, h]
  · intro h
    simp [jsNewObjectClass, h]

/-- Witness for C9 at concrete inputs: an exception result leaves nothing
attached; a successful construction attaches the supplied pointer. -/
theorem jsNewObjectClass_exception_skips_attach_witness :
    jsNewObjectClass JSValue.exception 7 = (JSValue.exception, [])
    ∧ jsNewObjectClass (JSValue.value 4) 7
        = (JSValue.value 4, [EngineCall.setObjData (JSValue.value 4) 7]) :=
  ⟨(jsNewObjectClass_exception_skips_attach JSValue.exception 7).1 rfl,
   (jsNewObjectClass_exception_skips_attach (JSValue.value 4) 7).2 rfl⟩

/-- Engine-side class-registration state: the engine-global class-id
allocation counter (`js_class_id_alloc` in quickjs, always at least 1; id 0
is never allocated) and the set of class ids registered on this runtime. -/
structure EngineState where
  nextClassId : Nat
  registered : List Nat
deriving DecidableEq

/-- Engine call `JS_NewClassID(&pclass_id)`: allocates a fresh id from the
engine-global counter only when the slot holds 0, otherwise returns the slot
unchanged.  Result: the id now in the slot and the updated engine state. -/
def JS_NewClassID (pclass_id : Nat) (st : EngineState) : Nat × EngineState :=
  if pclass_id = 0 then
    (st.nextClassId, { st with nextClassId := st.nextClassId + 1 })
  else
    (pclass_id, st)

/-- Engine call `JS_IsRegisteredClass(rt, classId)`. -/
def JS_IsRegisteredClass (st : EngineState) (classId : Nat) : Bool :=
  decide (classId ∈ st.registered)

/-- Engine call `JS_NewClass(rt, classId, def)`: `e` is the engine's return
code for this call (negative = failure, in which case nothing is registered).
Result: the updated engine state and the return code. -/
def JS_NewClass (st : EngineState) (classId : Nat) (e : Int) : EngineState × Int :=
  if e < 0 then (st, e)
  else ({ st with registered := classId :: st.registered }, e)

/-- Result of one `jsNewClass` call: the returned class id, the engine state
afterwards, and whether `JS_ThrowInternalError` was invoked. -/
structure NewClassResult where
  classId : Nat
  st : EngineState
  threw : Bool
deriving DecidableEq

/--
```c
DLLEXPORT uint32_t jsNewClass(JSContext *ctx, const char *name)
{
  JSClassID QJSClassId = 0;
  JS_NewClassID(&QJSClassId);
  JSRuntime *rt = JS_GetRuntime(ctx);
  if (!JS_IsRegisteredClass(rt, QJSClassId))
  \x7b
    JSClassDef def;
    def.class_name = name;
    def.finalizer = jsNewClass_finalizer;
    int e = JS_NewClass(rt, QJSClassId, &def);
    if (e < 0)
    \x7b
      JS_ThrowInternalError(ctx, "Cant register class %s", name);
      return 0;
    \x7d
  \x7d
  return QJSClassId;
}
```
The local slot `QJSClassId` is reset to 0 on every call, so `JS_NewClassID`
allocates a fresh id each time.  `e_new_class` is the engine's `JS_NewClass`
return code for this call (negative = failure). -/
def jsNewClass (st0 : EngineState) (e_new_class : Int) : NewClassResult :=
  let QJSClassId : Nat := 0
  let alloc := JS_NewClassID QJSClassId st0
  let QJSClassId := alloc.1
  let st := alloc.2
  if !(JS_IsRegisteredClass st QJSClassId) then
    let call := JS_NewClass st QJSClassId e_new_class
    let st1 := call.1
    let e := call.2
    if e < 0 then
      ⟨0, st1, true⟩
    else
      ⟨QJSClassId, st1, false⟩
  else
    ⟨QJSClassId, st, false⟩

/-- Claim C1 fails on the code: starting from an engine state with the next
free class id 53 and nothing registered, two successive successful calls of
`jsNewClass` on the same runtime (same name) return the distinct ids 53 and
54, and the second call registers a second class instead of reusing the
first — because the class-id slot is a function-local reset to 0 on every
call, not the engine-wide slot the spec describes. -/
theorem jsNewClass_repeated_not_idempotent :
    (jsNewClass (EngineState.mk 53 []) 0).threw = false
    ∧ ((jsNewClass (jsNewClass (EngineState.mk 53 []) 0).st 0).threw = false)
    ∧ (jsNewClass (EngineState.mk 53 []) 0).classId = 53
    ∧ (jsNewClass (jsNewClass (EngineState.mk 53 []) 0).st 0).classId = 54
    ∧ (jsNewClass (EngineState.mk 53 []) 0).classId
        ≠ (jsNewClass (jsNewClass (EngineState.mk 53 []) 0).st 0).classId
    ∧ (jsNewClass (jsNewClass (EngineState.mk 53 []) 0).st 0).st.registered = [54, 53] := by
  decide

/-- Claim C10: when the engine's `JS_NewClass` fails (negative return code)
on the freshly allocated id, `jsNewClass` throws an internal error on the
context and returns the class identifier 0 as a failure sentinel, and the
failed call registers nothing. -/
theorem jsNewClass_engine_failure_spec (st : EngineState) (e : Int)
    (hfresh : st.nextClassId ∉ st.registered) (he : e < 0) :
    (jsNewClass st e).classId = 0
    ∧ (jsNewClass st e).threw = true
    ∧ (jsNewClass st e).st.registered = st.registered := by
  have hreg : JS_IsRegisteredClass { st with nextClassId := st.nextClassId + 1 }
      st.nextClassId = false := by
    simpa [JS_IsRegisteredClass] using hfresh
  simp [jsNewClass, JS_NewClassID, JS_NewClass, hreg, he]

/-- Witness for C10 at a concrete input: with next free id 53, ids 1 and 2
already registered and an engine failure code of -1, `jsNewClass` throws and
returns the sentinel 0. -/
theorem jsNewClass_engine_failure_spec_witness :
    (jsNewClass (EngineState.mk 53 [1, 2]) (-1)).classId = 0
    ∧ (jsNewClass (EngineState.mk 53 [1, 2]) (-1)).threw = true
    ∧ (jsNewClass (EngineState.mk 53 [1, 2]) (-1)).st.registered = [1, 2] :=
  jsNewClass_engine_failure_spec (EngineState.mk 53 [1, 2]) (-1) (by decide) (by decide)
